import Mathlib

/-!
Shallow embedding of `src/implementors/core/marker/trait.Send.js`, a
rustdoc-generated "trait implementors" script.  The script consists of a
static data table (`var implementors = {...}`) and a single dispatch
statement that hands the table to the browser-side documentation viewer.

The raw table is embedded verbatim as `implementors`.  A structured view
`implementorsStruct` records, for every entry, the parsed content of its
HTML string (generic parameters, implemented trait path, self type, type
arguments, where-clause bounds); `renderTable` maps the structured view
back to the exact raw strings, which ties the two together.
The dispatch statement is modelled by `runScript` over an explicit
window state.
-/

/-- An entry of the raw table: the HTML string of the impl, the number 1,
and the singleton list holding the collapsed module path of the
implementing type.  This is the exact shape of the JS array literals. -/
abbrev RawEntry := String × Nat × List String

/-- The raw table type: an association list from top-level key to the
list of entries under that key, in source order. -/
abbrev ImplementorsTable := List (String × List RawEntry)

/-- Base URL used by every trait link in the file. -/
def rustdocBase : String := "https://doc.rust-lang.org/1.68.2/"

/-- Splits a character list at every `::` separator. -/
def splitCols : List Char → List (List Char)
  | [] => [[]]
  | ':' :: ':' :: rest => [] :: splitCols rest
  | c :: rest =>
    match splitCols rest with
    | [] => [[c]]
    | g :: gs => (c :: g) :: gs

/-- The `::`-separated components of a fully qualified path. -/
def pathParts (path : String) : List String :=
  (splitCols path.toList).map String.mk

/-- Joins strings with the given separator between them. -/
def joinSep (sep : String) : List String → String
  | [] => ""
  | [x] => x
  | x :: y :: xs => x ++ sep ++ joinSep sep (y :: xs)

/-- The last element of a list of strings, or `d` when empty. -/
def lastD (d : String) : List String → String
  | [] => d
  | [x] => x
  | _ :: y :: xs => lastD d (y :: xs)

/-- The relative documentation URL rustdoc derives from an item kind and a
fully qualified path: path components joined by `/`, the last one written
`kind.Name.html` (e.g. `trait.Send.html`). -/
def hrefPath (kind path : String) : String :=
  let parts := pathParts path
  joinSep "/" (parts.dropLast ++ [kind ++ "." ++ lastD "" parts ++ ".html"])

/-- The display name of an item: the last component of its path. -/
def lastName (path : String) : String := lastD "" (pathParts path)

/-- The HTML anchor for a trait, as rustdoc emits it.  Traits are linked
against the hosted rust documentation, hence the absolute URL. -/
def traitLink (path : String) : String :=
  "<a class=\"trait\" href=\"" ++ rustdocBase ++ hrefPath "trait" path ++
    "\" title=\"trait " ++ path ++ "\">" ++ lastName path ++ "</a>"

/-- The HTML anchor for a local type (`kind` is `enum` or `struct`),
linked by a relative URL. -/
def typeLink (kind path : String) : String :=
  "<a class=\"" ++ kind ++ "\" href=\"" ++ hrefPath kind path ++
    "\" title=\"" ++ kind ++ " " ++ path ++ "\">" ++ lastName path ++ "</a>"

/-- The parsed content of one impl string of the table. -/
structure ImplDesc where
  generics : List String
  traitPath : String
  selfKind : String
  selfPath : String
  selfArgs : List String
  bounds : List (String × List String)
deriving DecidableEq

/-- The HTML-escaped generic argument list, empty when there are no
parameters. -/
def renderGenerics (g : List String) : String :=
  if g.isEmpty then "" else "&lt;" ++ joinSep ", " g ++ "&gt;"

/-- One where-clause line: indentation entities, the parameter, and its
bound traits joined by ` + `. -/
def renderBound (b : String × List String) : String :=
  "&nbsp;&nbsp;&nbsp;&nbsp;" ++ b.1 ++ ": " ++
    joinSep " + " (b.2.map traitLink) ++ ","

/-- The where-clause span, empty when there are no bounds. -/
def renderWhere (bs : List (String × List String)) : String :=
  if bs.isEmpty then ""
  else "<span class=\"where fmt-newline\">where<br>" ++
    String.join (bs.map renderBound) ++ "</span>"

/-- The full impl string: `impl<G> Trait for Type<A>` followed by the
where clause. -/
def ImplDesc.render (d : ImplDesc) : String :=
  "impl" ++ renderGenerics d.generics ++ " " ++ traitLink d.traitPath ++
    " for " ++ typeLink d.selfKind d.selfPath ++ renderGenerics d.selfArgs ++
    renderWhere d.bounds

/-- A structured entry rendered back to the raw triple shape. -/
def renderEntry (e : ImplDesc × Nat × List String) : RawEntry :=
  (e.1.render, e.2.1, e.2.2)

/-- The whole structured table rendered back to the raw table. -/
def renderTable (t : List (String × List (ImplDesc × Nat × List String))) :
    ImplementorsTable :=
  t.map fun p => (p.1, p.2.map renderEntry)

/-- The raw implementors table, transcribed verbatim from lines 1-5 of
the source file (apostrophes written `\\x27`). -/
def implementors : ImplementorsTable := [
  ("ak09915_rs", [
    ("impl <a class=\"trait\" href=\"https://doc.rust-lang.org/1.68.2/core/marker/trait.Send.html\" title=\"trait core::marker::Send\">Send</a> for <a class=\"enum\" href=\"ak09915_rs/enum.Register.html\" title=\"enum ak09915_rs::Register\">Register</a>", 1, ["ak09915_rs::Register"]),
    ("impl <a class=\"trait\" href=\"https://doc.rust-lang.org/1.68.2/core/marker/trait.Send.html\" title=\"trait core::marker::Send\">Send</a> for <a class=\"enum\" href=\"ak09915_rs/enum.Mode.html\" title=\"enum ak09915_rs::Mode\">Mode</a>", 1, ["ak09915_rs::Mode"]),
    ("impl&lt;E&gt; <a class=\"trait\" href=\"https://doc.rust-lang.org/1.68.2/core/marker/trait.Send.html\" title=\"trait core::marker::Send\">Send</a> for <a class=\"enum\" href=\"ak09915_rs/enum.Error.html\" title=\"enum ak09915_rs::Error\">Error</a>&lt;E&gt;<span class=\"where fmt-newline\">where<br>&nbsp;&nbsp;&nbsp;&nbsp;E: <a class=\"trait\" href=\"https://doc.rust-lang.org/1.68.2/core/marker/trait.Send.html\" title=\"trait core::marker::Send\">Send</a>,</span>", 1, ["ak09915_rs::Error"]),
    ("impl&lt;I2C&gt; <a class=\"trait\" href=\"https://doc.rust-lang.org/1.68.2/core/marker/trait.Send.html\" title=\"trait core::marker::Send\">Send</a> for <a class=\"struct\" href=\"ak09915_rs/struct.Ak09915.html\" title=\"struct ak09915_rs::Ak09915\">Ak09915</a>&lt;I2C&gt;<span class=\"where fmt-newline\">where<br>&nbsp;&nbsp;&nbsp;&nbsp;I2C: <a class=\"trait\" href=\"https://doc.rust-lang.org/1.68.2/core/marker/trait.Send.html\" title=\"trait core::marker::Send\">Send</a>,</span>", 1, ["ak09915_rs::Ak09915"])
  ]),
  ("embedded_hal", [
    ("impl&lt;\x27a&gt; <a class=\"trait\" href=\"https://doc.rust-lang.org/1.68.2/core/marker/trait.Send.html\" title=\"trait core::marker::Send\">Send</a> for <a class=\"enum\" href=\"embedded_hal/blocking/i2c/enum.Operation.html\" title=\"enum embedded_hal::blocking::i2c::Operation\">Operation</a>&lt;\x27a&gt;", 1, ["embedded_hal::blocking::i2c::Operation"]),
    ("impl&lt;\x27a, W&gt; <a class=\"trait\" href=\"https://doc.rust-lang.org/1.68.2/core/marker/trait.Send.html\" title=\"trait core::marker::Send\">Send</a> for <a class=\"enum\" href=\"embedded_hal/blocking/spi/enum.Operation.html\" title=\"enum embedded_hal::blocking::spi::Operation\">Operation</a>&lt;\x27a, W&gt;<span class=\"where fmt-newline\">where<br>&nbsp;&nbsp;&nbsp;&nbsp;W: <a class=\"trait\" href=\"https://doc.rust-lang.org/1.68.2/core/marker/trait.Send.html\" title=\"trait core::marker::Send\">Send</a> + <a class=\"trait\" href=\"https://doc.rust-lang.org/1.68.2/core/marker/trait.Sync.html\" title=\"trait core::marker::Sync\">Sync</a>,</span>", 1, ["embedded_hal::blocking::spi::Operation"]),
    ("impl <a class=\"trait\" href=\"https://doc.rust-lang.org/1.68.2/core/marker/trait.Send.html\" title=\"trait core::marker::Send\">Send</a> for <a class=\"struct\" href=\"embedded_hal/can/struct.StandardId.html\" title=\"struct embedded_hal::can::StandardId\">StandardId</a>", 1, ["embedded_hal::can::id::StandardId"]),
    ("impl <a class=\"trait\" href=\"https://doc.rust-lang.org/1.68.2/core/marker/trait.Send.html\" title=\"trait core::marker::Send\">Send</a> for <a class=\"struct\" href=\"embedded_hal/can/struct.ExtendedId.html\" title=\"struct embedded_hal::can::ExtendedId\">ExtendedId</a>", 1, ["embedded_hal::can::id::ExtendedId"]),
    ("impl <a class=\"trait\" href=\"https://doc.rust-lang.org/1.68.2/core/marker/trait.Send.html\" title=\"trait core::marker::Send\">Send</a> for <a class=\"enum\" href=\"embedded_hal/can/enum.Id.html\" title=\"enum embedded_hal::can::Id\">Id</a>", 1, ["embedded_hal::can::id::Id"]),
    ("impl <a class=\"trait\" href=\"https://doc.rust-lang.org/1.68.2/core/marker/trait.Send.html\" title=\"trait core::marker::Send\">Send</a> for <a class=\"enum\" href=\"embedded_hal/can/enum.ErrorKind.html\" title=\"enum embedded_hal::can::ErrorKind\">ErrorKind</a>", 1, ["embedded_hal::can::ErrorKind"]),
    ("impl <a class=\"trait\" href=\"https://doc.rust-lang.org/1.68.2/core/marker/trait.Send.html\" title=\"trait core::marker::Send\">Send</a> for <a class=\"enum\" href=\"embedded_hal/digital/v2/enum.PinState.html\" title=\"enum embedded_hal::digital::v2::PinState\">PinState</a>", 1, ["embedded_hal::digital::v2::PinState"]),
    ("impl&lt;T&gt; <a class=\"trait\" href=\"https://doc.rust-lang.org/1.68.2/core/marker/trait.Send.html\" title=\"trait core::marker::Send\">Send</a> for <a class=\"struct\" href=\"embedded_hal/digital/v1_compat/struct.OldOutputPin.html\" title=\"struct embedded_hal::digital::v1_compat::OldOutputPin\">OldOutputPin</a>&lt;T&gt;<span class=\"where fmt-newline\">where<br>&nbsp;&nbsp;&nbsp;&nbsp;T: <a class=\"trait\" href=\"https://doc.rust-lang.org/1.68.2/core/marker/trait.Send.html\" title=\"trait core::marker::Send\">Send</a>,</span>", 1, ["embedded_hal::digital::v1_compat::OldOutputPin"]),
    ("impl <a class=\"trait\" href=\"https://doc.rust-lang.org/1.68.2/core/marker/trait.Send.html\" title=\"trait core::marker::Send\">Send</a> for <a class=\"enum\" href=\"embedded_hal/spi/enum.Polarity.html\" title=\"enum embedded_hal::spi::Polarity\">Polarity</a>", 1, ["embedded_hal::spi::Polarity"]),
    ("impl <a class=\"trait\" href=\"https://doc.rust-lang.org/1.68.2/core/marker/trait.Send.html\" title=\"trait core::marker::Send\">Send</a> for <a class=\"enum\" href=\"embedded_hal/spi/enum.Phase.html\" title=\"enum embedded_hal::spi::Phase\">Phase</a>", 1, ["embedded_hal::spi::Phase"]),
    ("impl <a class=\"trait\" href=\"https://doc.rust-lang.org/1.68.2/core/marker/trait.Send.html\" title=\"trait core::marker::Send\">Send</a> for <a class=\"struct\" href=\"embedded_hal/spi/struct.Mode.html\" title=\"struct embedded_hal::spi::Mode\">Mode</a>", 1, ["embedded_hal::spi::Mode"])
  ]),
  ("void", [
    ("impl <a class=\"trait\" href=\"https://doc.rust-lang.org/1.68.2/core/marker/trait.Send.html\" title=\"trait core::marker::Send\">Send</a> for <a class=\"enum\" href=\"void/enum.Void.html\" title=\"enum void::Void\">Void</a>", 1, ["void::Void"])
  ])
]

/-- The structured view of the table; `renderTable_eq` proves that it
renders back to `implementors` exactly. -/
def implementorsStruct : List (String × List (ImplDesc × Nat × List String)) := [
  ("ak09915_rs", [
    (⟨[], "core::marker::Send", "enum", "ak09915_rs::Register", [], []⟩, 1, ["ak09915_rs::Register"]),
    (⟨[], "core::marker::Send", "enum", "ak09915_rs::Mode", [], []⟩, 1, ["ak09915_rs::Mode"]),
    (⟨["E"], "core::marker::Send", "enum", "ak09915_rs::Error", ["E"], [("E", ["core::marker::Send"])]⟩, 1, ["ak09915_rs::Error"]),
    (⟨["I2C"], "core::marker::Send", "struct", "ak09915_rs::Ak09915", ["I2C"], [("I2C", ["core::marker::Send"])]⟩, 1, ["ak09915_rs::Ak09915"])
  ]),
  ("embedded_hal", [
    (⟨["\x27a"], "core::marker::Send", "enum", "embedded_hal::blocking::i2c::Operation", ["\x27a"], []⟩, 1, ["embedded_hal::blocking::i2c::Operation"]),
    (⟨["\x27a", "W"], "core::marker::Send", "enum", "embedded_hal::blocking::spi::Operation", ["\x27a", "W"], [("W", ["core::marker::Send", "core::marker::Sync"])]⟩, 1, ["embedded_hal::blocking::spi::Operation"]),
    (⟨[], "core::marker::Send", "struct", "embedded_hal::can::StandardId", [], []⟩, 1, ["embedded_hal::can::id::StandardId"]),
    (⟨[], "core::marker::Send", "struct", "embedded_hal::can::ExtendedId", [], []⟩, 1, ["embedded_hal::can::id::ExtendedId"]),
    (⟨[], "core::marker::Send", "enum", "embedded_hal::can::Id", [], []⟩, 1, ["embedded_hal::can::id::Id"]),
    (⟨[], "core::marker::Send", "enum", "embedded_hal::can::ErrorKind", [], []⟩, 1, ["embedded_hal::can::ErrorKind"]),
    (⟨[], "core::marker::Send", "enum", "embedded_hal::digital::v2::PinState", [], []⟩, 1, ["embedded_hal::digital::v2::PinState"]),
    (⟨["T"], "core::marker::Send", "struct", "embedded_hal::digital::v1_compat::OldOutputPin", ["T"], [("T", ["core::marker::Send"])]⟩, 1, ["embedded_hal::digital::v1_compat::OldOutputPin"]),
    (⟨[], "core::marker::Send", "enum", "embedded_hal::spi::Polarity", [], []⟩, 1, ["embedded_hal::spi::Polarity"]),
    (⟨[], "core::marker::Send", "enum", "embedded_hal::spi::Phase", [], []⟩, 1, ["embedded_hal::spi::Phase"]),
    (⟨[], "core::marker::Send", "struct", "embedded_hal::spi::Mode", [], []⟩, 1, ["embedded_hal::spi::Mode"])
  ]),
  ("void", [
    (⟨[], "core::marker::Send", "enum", "void::Void", [], []⟩, 1, ["void::Void"])
  ])
]

instance rawEntryListDecEq : DecidableEq (List RawEntry) := inferInstance

instance crateDecEq : DecidableEq (String × List RawEntry) := inferInstance

instance tableDecEq : DecidableEq ImplementorsTable := inferInstance

instance tableOptDecEq : DecidableEq (Option ImplementorsTable) := inferInstance

/-- The browser window state the script can observe or modify: whether
`window.register_implementors` is defined and truthy, the current value
of `window.pending_implementors`, and every other global property
(modelled as an association list), which the script never touches. -/
structure Window where
  register_implementors_defined : Bool
  pending_implementors : Option ImplementorsTable
  other : List (String × String)
deriving DecidableEq

/-- The observable outcome of one execution of the script: the final
window state, the arguments passed to `window.register_implementors` in
call order, and the number of conditional branches evaluated. -/
structure ExecResult where
  window : Window
  calls : List ImplementorsTable
  branches : Nat
deriving DecidableEq

/-- Line 5 of the source: `if (window.register_implementors)
\x7bwindow.register_implementors(implementors);\x7d else
\x7bwindow.pending_implementors = implementors;\x7d`. -/
def runScript (w : Window) : ExecResult :=
  if w.register_implementors_defined then
    ⟨w, [implementors], 1⟩
  else
    ⟨{ w with pending_implementors := some implementors }, [], 1⟩

/-- The table the script delivers to the viewer: the argument of the
`register_implementors` call when one is made, and the value left in
`pending_implementors` otherwise. -/
def delivered (w : Window) : Option ImplementorsTable :=
  match (runScript w).calls with
  | a :: _ => some a
  | [] => (runScript w).window.pending_implementors

/-- The crate prefix of a fully qualified path: its first component. -/
def crateOf (path : String) : String := (pathParts path).headD ""

/-- Every trait path the table mentions, either as the implemented trait
of an entry or inside a where-clause bound. -/
def mentionedTraitPaths : List String :=
  implementorsStruct.flatMap fun p =>
    p.2.flatMap fun e => e.1.traitPath :: e.1.bounds.flatMap Prod.snd

/-- The display names of the mentioned traits. -/
def mentionedTraitNames : List String := mentionedTraitPaths.map lastName

/-- A string rendered as a JS string literal, inner quotes escaped. -/
def jsString (s : String) : String :=
  "\"" ++
    String.mk (s.toList.foldr
      (fun c acc => if c = '\"' then '\\' :: '\"' :: acc else c :: acc) []) ++
    "\""

/-- One entry rendered as the JS array literal `["…",1,["…"]]`. -/
def jsEntry (e : RawEntry) : String :=
  "[" ++ jsString e.1 ++ "," ++ Nat.repr e.2.1 ++ "," ++
    "[" ++ joinSep "," (e.2.2.map jsString) ++ "]]"

/-- One crate's line of the object literal: `"crate":[entries]`. -/
def jsCrate (p : String × List RawEntry) : String :=
  jsString p.1 ++ ":[" ++ joinSep "," (p.2.map jsEntry) ++ "]"

/-- The object literal of the table: `\x7b` and `\x7d` on their own
margins, one line per crate separated by `,`. -/
def tableLiteral : String :=
  "\x7b\n" ++ joinSep ",\n" (implementors.map jsCrate) ++ "\n\x7d"

/-- The full text of the generated script, rebuilt from the table: the
IIFE header, the object literal, and the dispatch statement (braces
written `\x7b`/`\x7d`). -/
def scriptText : String :=
  "(function() \x7bvar implementors = " ++ tableLiteral ++
    ";if (window.register_implementors) " ++
    "\x7bwindow.register_implementors(implementors);\x7d else " ++
    "\x7bwindow.pending_implementors = implementors;\x7d\x7d)()"

/-- Splits a character list at every newline. -/
def splitNl : List Char → List (List Char)
  | [] => [[]]
  | c :: rest =>
    if c = '\n' then [] :: splitNl rest
    else
      match splitNl rest with
      | [] => [[c]]
      | g :: gs => (c :: g) :: gs

/-- The number of lines of a string: how many pieces its characters
split into at newlines. -/
def lineCount (s : String) : Nat := (splitNl s.data).length

/-- The number of newline characters in a character list. -/
def countNlL : List Char → Nat
  | [] => 0
  | c :: rest => (if c = '\n' then 1 else 0) + countNlL rest

/-- The number of newline characters in a string. -/
def countNl (s : String) : Nat := countNlL s.data

set_option maxRecDepth 40000 in
set_option maxHeartbeats 1000000 in
/-- The structured table renders back to the raw table, character for
character: the structured view is a faithful parse of the source data. -/
theorem renderTable_eq : renderTable implementorsStruct = implementors := by decide

/-- C1: when the script is executed it registers its table with the
viewer.  When `window.register_implementors` is defined it is called
exactly once, with the implementors table as argument, and the window is
left unchanged; otherwise no call is made and the table is assigned to
`window.pending_implementors`.  In every execution exactly one of these
two actions occurs. -/
theorem script_registers_table (w : Window) :
    Xor' ((runScript w).calls = [implementors] ∧ (runScript w).window = w)
      ((runScript w).calls = [] ∧
        (runScript w).window = { w with pending_implementors := some implementors }) ∧
    (runScript w).calls =
      (if w.register_implementors_defined then [implementors] else []) := by
  cases h : w.register_implementors_defined <;> simp [runScript, h, Xor']

/-- C2 counterexample: executing the script over a window with no
`register_implementors` hook both evaluates a conditional branch and
modifies window state, so the execution is neither branch-free nor
state-free. -/
theorem script_mutates_state_cex :
    (runScript ⟨false, none, []⟩).window ≠ (⟨false, none, []⟩ : Window) ∧
    (runScript ⟨false, none, []⟩).branches ≠ 0 := by
  decide

/-- C2 (amended): every execution evaluates exactly one conditional
branch, on the truthiness of `window.register_implementors`, and
modifies at most one mutable global: `pending_implementors` receives the
table exactly when `register_implementors` is falsy, while
`register_implementors` itself and every other window property are left
unchanged. -/
theorem script_single_branch_single_write (w : Window) :
    (runScript w).branches = 1 ∧
    (runScript w).window.register_implementors_defined =
      w.register_implementors_defined ∧
    (runScript w).window.other = w.other ∧
    (runScript w).window.pending_implementors =
      (if w.register_implementors_defined then w.pending_implementors
       else some implementors) := by
  cases h : w.register_implementors_defined <;> simp [runScript, h]

/-- C3 counterexample: the top-level key `ak09915_rs` is not the name of
any trait mentioned in the table; every trait the table mentions is
`core::marker::Send` or `core::marker::Sync`.  The keys are crate
names. -/
theorem key_not_a_trait_name_cex :
    "ak09915_rs" ∈ implementors.map Prod.fst ∧
    "ak09915_rs" ∉ mentionedTraitPaths ∧
    "ak09915_rs" ∉ mentionedTraitNames ∧
    (mentionedTraitPaths.all fun p =>
      p == "core::marker::Send" || p == "core::marker::Sync") = true := by
  decide

/-- C3 (amended): every top-level key of the implementors object is the
name of a crate, and its value is the list of entries for the types of
that crate implementing the trait Send: both the linked type path and
the collapsed module path of every entry start with the key as crate
prefix, and the implemented trait is `core::marker::Send` throughout. -/
theorem keys_are_crate_names :
    renderTable implementorsStruct = implementors ∧
    (implementorsStruct.all fun p => p.2.all fun e =>
      crateOf e.1.selfPath == p.1 &&
      e.2.2.all (fun q => crateOf q == p.1) &&
      e.1.traitPath == "core::marker::Send") = true :=
  ⟨renderTable_eq, by decide⟩

/-- C4: every entry of the table implements `core::marker::Send`: the
implemented-trait slot of every impl string (the anchor between `impl`
and ` for `) is the Send trait, for every key of the table. -/
theorem implemented_trait_is_send :
    renderTable implementorsStruct = implementors ∧
    (implementorsStruct.all fun p => p.2.all fun e =>
      e.1.traitPath == "core::marker::Send") = true :=
  ⟨renderTable_eq, by decide⟩

/-- C5: the top-level keys of the implementors table are exactly
`ak09915_rs`, `embedded_hal` and `void`, in that order and with no other
key present. -/
theorem table_keys_exactly_three_crates :
    implementors.map Prod.fst = ["ak09915_rs", "embedded_hal", "void"] := by
  decide

/-- C6: every entry under every crate key is a triple of an HTML impl
string, the number 1, and a singleton list holding the collapsed path of
the implementing type; the strings render structured metadata and the
table holds no other kind of value. -/
theorem entries_are_metadata_triples :
    renderTable implementorsStruct = implementors ∧
    (implementors.all fun p => p.2.all fun e =>
      e.2.1 == 1 && e.2.2.length == 1) = true :=
  ⟨renderTable_eq, by decide⟩

/-- C7: execution is deterministic and input-independent: two executions
from equal initial window states produce equal results, and the table the
script delivers (the call argument when the hook is defined, the pending
value otherwise) is the constant `implementors`. -/
theorem script_deterministic (w₁ w₂ : Window) (h : w₁ = w₂) :
    runScript w₁ = runScript w₂ ∧ delivered w₁ = some implementors := by
  subst h
  refine ⟨rfl, ?_⟩
  unfold delivered
  cases hw : w₁.register_implementors_defined <;> simp [runScript, hw]

/-- C7 witness: the determinism theorem applied to a concrete window
with the hook defined. -/
theorem script_deterministic_witness :
    runScript ⟨true, none, []⟩ = runScript ⟨true, none, []⟩ ∧
    delivered ⟨true, none, []⟩ = some implementors :=
  script_deterministic ⟨true, none, []⟩ ⟨true, none, []⟩ rfl

/-- Splitting at newlines never yields an empty list of pieces. -/
theorem splitNl_ne_nil (l : List Char) : splitNl l ≠ [] := by
  cases l with
  | nil => simp [splitNl]
  | cons c rest =>
    simp only [splitNl]
    by_cases h : c = '\n'
    · simp [h]
    · simp only [if_neg h]
      cases splitNl rest <;> simp

/-- The number of pieces is one more than the number of newlines. -/
theorem splitNl_length (l : List Char) : (splitNl l).length = countNlL l + 1 := by
  induction l with
  | nil => simp [splitNl, countNlL]
  | cons c rest ih =>
    simp only [splitNl, countNlL]
    by_cases h : c = '\n'
    · simp [h, ih]
      omega
    · simp only [if_neg h]
      cases hr : splitNl rest with
      | nil => exact absurd hr (splitNl_ne_nil rest)
      | cons g gs =>
        rw [hr] at ih
        simpa [h] using ih

/-- Newline counting distributes over list append. -/
theorem countNlL_append (a b : List Char) :
    countNlL (a ++ b) = countNlL a + countNlL b := by
  induction a with
  | nil => simp [countNlL]
  | cons c rest ih => simp [countNlL, ih, Nat.add_assoc]

/-- Newline counting distributes over string append. -/
theorem countNl_append (a b : String) :
    countNl (a ++ b) = countNl a + countNl b := by
  simp [countNl, String.data_append, countNlL_append]

/-- Joining newline-free pieces contributes one separator count per
junction. -/
theorem countNl_joinSep (sep : String) (l : List String)
    (h : ∀ s ∈ l, countNl s = 0) :
    countNl (joinSep sep l) = (l.length - 1) * countNl sep := by
  induction l with
  | nil => simp [joinSep, countNl, countNlL]
  | cons x xs ih =>
    cases xs with
    | nil => simp [joinSep, h x (by simp)]
    | cons y ys =>
      have hx : countNl x = 0 := h x (by simp)
      have hrest : ∀ s ∈ y :: ys, countNl s = 0 := fun s hs => h s (by simp [hs])
      simp only [joinSep, countNl_append, hx, ih hrest, List.length_cons]
      simp only [Nat.add_sub_cancel, Nat.zero_add]
      ring

/-- A crate line of the script is newline-free as soon as its key and
entry strings are. -/
theorem countNl_jsCrate (p : String × List RawEntry)
    (hk : countNl (jsString p.1) = 0)
    (he : ∀ e ∈ p.2, countNl (jsEntry e) = 0) :
    countNl (jsCrate p) = 0 := by
  have hentries : ∀ s ∈ p.2.map jsEntry, countNl s = 0 := by
    intro s hs
    obtain ⟨e, he2, rfl⟩ := List.mem_map.1 hs
    exact he e he2
  have hj := countNl_joinSep "," (p.2.map jsEntry) hentries
  have hc : countNl "," = 0 := by decide
  have h1 : countNl ":[" = 0 := by decide
  have h2 : countNl "]" = 0 := by decide
  simp [jsCrate, countNl_append, hk, hj, hc, h1, h2]

set_option maxRecDepth 4000 in
/-- Every key string and every entry string of the table is
newline-free once rendered as a JS literal. -/
theorem table_strings_nl_free :
    (implementors.all fun p =>
      countNl (jsString p.1) == 0 &&
      p.2.all fun e => countNl (jsEntry e) == 0) = true := by
  decide

/-- C8: the payload spans exactly 5 lines: the object literal of the
implementors table occupies 5 lines of text, and so does the whole
generated script that wraps it. -/
theorem payload_spans_five_lines :
    lineCount tableLiteral = 5 ∧ lineCount scriptText = 5 := by
  have hcrate : ∀ p ∈ implementors, countNl (jsCrate p) = 0 := by
    intro p hp
    have hb := (List.all_eq_true.1 table_strings_nl_free) p hp
    simp only [Bool.and_eq_true, beq_iff_eq, List.all_eq_true] at hb
    exact countNl_jsCrate p hb.1 fun e he => hb.2 e he
  have hmap : ∀ s ∈ implementors.map jsCrate, countNl s = 0 := by
    intro s hs
    obtain ⟨p, hp, rfl⟩ := List.mem_map.1 hs
    exact hcrate p hp
  have hJ := countNl_joinSep ",\n" (implementors.map jsCrate) hmap
  have hlen : (implementors.map jsCrate).length = 3 := by
    rw [List.length_map]
    decide
  have hsep : countNl ",\n" = 1 := by decide
  have hopen : countNl "\x7b\n" = 1 := by decide
  have hclose : countNl "\n\x7d" = 1 := by decide
  have htab : countNl tableLiteral = 4 := by
    unfold tableLiteral
    rw [countNl_append, countNl_append, hJ, hlen, hsep, hopen, hclose]
  have hscript : countNl scriptText = 4 := by
    unfold scriptText
    have ha : countNl "(function() \x7bvar implementors = " = 0 := by decide
    have hb : countNl ";if (window.register_implementors) " = 0 := by decide
    have hc : countNl "\x7bwindow.register_implementors(implementors);\x7d else " = 0 := by
      decide
    have hd : countNl "\x7bwindow.pending_implementors = implementors;\x7d\x7d)()" = 0 := by
      decide
    rw [countNl_append, countNl_append, countNl_append, countNl_append,
      ha, hb, hc, hd, htab]
  refine ⟨?_, ?_⟩
  · unfold lineCount
    rw [splitNl_length]
    have : countNlL tableLiteral.data = 4 := htab
    omega
  · unfold lineCount
    rw [splitNl_length]
    have : countNlL scriptText.data = 4 := hscript
    omega

/-- C9: among the four `ak09915_rs` entries, `Register` and `Mode` carry
no where-clause bound, while `Error` requires `E: Send` and `Ak09915`
requires `I2C: Send`. -/
theorem ak09915_bounds_exact :
    renderTable implementorsStruct = implementors ∧
    (implementorsStruct.map fun p =>
      (p.1, p.2.map fun e => (e.1.selfPath, e.1.bounds))).head? =
      some ("ak09915_rs",
        [("ak09915_rs::Register", []), ("ak09915_rs::Mode", []),
         ("ak09915_rs::Error", [("E", ["core::marker::Send"])]),
         ("ak09915_rs::Ak09915", [("I2C", ["core::marker::Send"])])]) :=
  ⟨renderTable_eq, by decide⟩

/-- C10: the script modifies at most one global property:
`pending_implementors` receives the table exactly when
`register_implementors` is falsy and keeps its old value otherwise,
while `register_implementors` and every other property of the window are
never modified. -/
theorem script_touches_only_pending (w : Window) :
    (runScript w).window.register_implementors_defined =
      w.register_implementors_defined ∧
    (runScript w).window.other = w.other ∧
    (runScript w).window.pending_implementors =
      (if w.register_implementors_defined then w.pending_implementors
       else some implementors) := by
  cases h : w.register_implementors_defined <;> simp [runScript, h]
